import Mathlib

/-!
Verification of the event-analysis core of the `ai-invest-news` repository.

The Python source under `src/src/event/` is shallowly embedded below:

* news items (loosely-typed dicts in Python) become the `NewsItem` structure,
  with each `news.get(key, default)` access modelled by a total field;
* events become the `Event` structure (the `date_range` dict is flattened into
  the two fields `date_earliest` / `date_latest`, and the optional `decision`
  entry becomes an `Option Decision` field);
* Python `float` scores become `ℚ`;
* the two external library calls that this core makes — the sentence-embedding
  model (`SentenceTransformer.encode`) and the density clustering algorithms
  (`hdbscan.HDBSCAN` / `sklearn DBSCAN`, used only for batches of more than 10
  items) — are kept as explicit function parameters returning `Except String _`
  so that their failure modes can be reasoned about;
* Python code that can raise is modelled with `Except String`, and the
  `try/except` blocks of the source become explicit `match`es on those values;
* run-statistics dictionaries become insertion-ordered association lists
  (`Stats`), matching the insertion order of the Python dict literal.
-/

/-- A news item as consumed by the event core (spec §3): produced upstream,
read-only here.  The optional Python keys `signals`, `companies` and
`investment_score` are modelled as always-present fields, matching the
`news.get(key, default)` accesses in the source. -/
structure NewsItem where
  title : String
  content : String
  source : String
  url : String
  date : String
  signals : List String
  companies : List String
  investment_score : ℚ
deriving DecidableEq, Repr

/-- The decision triple attached to an event by the decision pipeline
(`decision_pipeline.py`, line 44). -/
structure Decision where
  importance : String
  signal : String
  action : String
deriving DecidableEq, Repr

/-- An event record, as built by `EventSummarizer.generate_event_summary`
(`event_summary.py`, lines 69-81).  The Python `date_range` sub-dict is
flattened into `date_earliest` / `date_latest`; the `decision` key, added
only by the decision pipeline, is an `Option`. -/
structure Event where
  event_id : String
  news_count : Nat
  sources : List String
  date_earliest : String
  date_latest : String
  keywords : List String
  representative_title : String
  summary : String
  news_list : List NewsItem
  decision : Option Decision
deriving DecidableEq, Repr

/-- A value stored in a run-statistics dictionary (`analyze_events` mixes
naturals, rationals, booleans and strings in one dict). -/
inductive StatVal where
  | n : Nat → StatVal
  | q : ℚ → StatVal
  | b : Bool → StatVal
  | s : String → StatVal
deriving DecidableEq, Repr

/-- A Python statistics dict: insertion-ordered key/value list. -/
abbrev Stats := List (String × StatVal)

/-- `stats[key]` lookup (keys are inserted at most once in the modelled code). -/
def statsGet (stats : Stats) (key : String) : Option StatVal :=
  (stats.find? (fun p => p.1 = key)).map (·.2)

/-! ## Configuration constants (`event_config.py`, `clustering.py.__init__`,
`decision_config.py`) -/

/-- `event_config.MIN_EVENT_SIZE` -/
def MIN_EVENT_SIZE : Nat := 2

/-- `event_config.MIN_CLUSTER_SIZE` -/
def MIN_CLUSTER_SIZE : Nat := 2

/-- `NewsClusterer.MIN_COMPANY_COUNT` (set in `__init__`) -/
def MIN_COMPANY_COUNT : Nat := 1

/-- `NewsClusterer.MIN_SIGNAL_COUNT` (set in `__init__`) -/
def MIN_SIGNAL_COUNT : Nat := 1

/-- `NewsClusterer.MIN_INVESTMENT_SCORE` (set in `__init__`) -/
def MIN_INVESTMENT_SCORE : ℚ := 3/10

/-- `IMPORTANCE_THRESHOLDS["high"]["min_news"]` -/
def HIGH_MIN_NEWS : Nat := 3

/-- `IMPORTANCE_THRESHOLDS["high"]["min_sources"]` -/
def HIGH_MIN_SOURCES : Nat := 2

/-- `IMPORTANCE_THRESHOLDS["high"]["min_score"]` -/
def HIGH_MIN_SCORE : ℚ := 6/10

/-- `IMPORTANCE_THRESHOLDS["medium"]["min_news"]` -/
def MEDIUM_MIN_NEWS : Nat := 2

/-- `IMPORTANCE_THRESHOLDS["medium"]["min_sources"]` -/
def MEDIUM_MIN_SOURCES : Nat := 1

/-- `IMPORTANCE_THRESHOLDS["medium"]["min_score"]` -/
def MEDIUM_MIN_SCORE : ℚ := 3/10

/-- `decision_config.POSITIVE_SIGNALS` (a Python set; only membership is used). -/
def POSITIVE_SIGNALS : List String :=
  ["earnings", "revenue", "profit", "funding",
   "investment", "contract", "partnership", "product_launch"]

/-- `decision_config.RISK_SIGNALS` (a Python set; only membership is used). -/
def RISK_SIGNALS : List String :=
  ["regulation", "ban", "lawsuit", "antitrust",
   "investigation", "security", "data_leak", "delay"]

/-! ## Importance evaluator (`importance_evaluator.py`) -/

/-- `EventImportanceEvaluator._avg_investment_score`: mean of
`investment_score` over `event["news_list"]`, with `max(len, 1)` guarding the
empty list (line 57 of the source). -/
def EventImportanceEvaluator.avg_investment_score (event : Event) : ℚ :=
  let scores := event.news_list.map (·.investment_score)
  scores.sum / (max scores.length 1 : Nat)

/-- `EventImportanceEvaluator._match`: all three threshold conditions of one
tier must hold simultaneously (lines 59-66). -/
def EventImportanceEvaluator.match_level (min_news min_sources : Nat)
    (min_score : ℚ) (news_count n_sources : Nat) (score : ℚ) : Bool :=
  decide (min_news ≤ news_count) && decide (min_sources ≤ n_sources) &&
    decide (min_score ≤ score)

/-- `EventImportanceEvaluator.evaluate` (lines 18-49): test High, then Medium,
else Low.  `set(event.get("sources", []))` becomes `sources.dedup` (only its
cardinality is used).  The `except` clause of the source returns "Low"; the
embedded function is total, so that branch is unreachable here. -/
def EventImportanceEvaluator.evaluate (event : Event) : String :=
  let news_count := event.news_count
  let n_sources := event.sources.dedup.length
  let avg_score := EventImportanceEvaluator.avg_investment_score event
  if EventImportanceEvaluator.match_level HIGH_MIN_NEWS HIGH_MIN_SOURCES
      HIGH_MIN_SCORE news_count n_sources avg_score then "High"
  else if EventImportanceEvaluator.match_level MEDIUM_MIN_NEWS
      MEDIUM_MIN_SOURCES MEDIUM_MIN_SCORE news_count n_sources avg_score then
    "Medium"
  else "Low"

/-! ## Signal classifier (`signal_classifier.py`) -/

/-- `EventSignalClassifier._collect_signals` (lines 56-61): union of the
`signals` tags over the event's news list (a Python set; `dedup` models it). -/
def EventSignalClassifier.collect_signals (event : Event) : List String :=
  ((event.news_list.map (·.signals)).flatten).dedup

/-- `EventSignalClassifier.classify` (lines 18-54).  The source's four-way
`if` chain is kept verbatim (its last two branches both return "Neutral").
The `except` clause returns "Neutral"; the embedded function is total. -/
def EventSignalClassifier.classify (event : Event) : String :=
  let signals := EventSignalClassifier.collect_signals event
  let has_positive := signals.any (fun s => POSITIVE_SIGNALS.contains s)
  let has_risk := signals.any (fun s => RISK_SIGNALS.contains s)
  if has_positive && !has_risk then "Positive"
  else if has_risk && !has_positive then "Risk"
  else if has_positive && has_risk then "Neutral"
  else "Neutral"

/-! ## Action mapper (`action_mapper.py`) -/

/-- The set `valid_importance` of `EventActionMapper.map` (line 29). -/
def EventActionMapper.valid_importance : List String := ["High", "Medium", "Low"]

/-- The set `valid_signal` of `EventActionMapper.map` (line 30). -/
def EventActionMapper.valid_signal : List String := ["Positive", "Neutral", "Risk"]

/-- `EventActionMapper.map` (lines 16-64): clamp invalid inputs to
"Low"/"Neutral", then the 3×3 rule table.  Total by construction, as the
source's blanket `except` (returning "Avoid") can never fire on the pure
string operations modelled here. -/
def EventActionMapper.map (importance signal : String) : String :=
  let importance :=
    if EventActionMapper.valid_importance.contains importance then importance
    else "Low"
  let signal :=
    if EventActionMapper.valid_signal.contains signal then signal
    else "Neutral"
  if importance = "High" then
    if signal = "Positive" then "Hold"
    else if signal = "Risk" then "Avoid"
    else "Watch"
  else if importance = "Medium" then
    if signal = "Positive" then "Watch"
    else if signal = "Risk" then "Avoid"
    else "Watch"
  else "Avoid"

/-! ## Decision pipeline (`decision_pipeline.py`) -/

/-- The loop body of `EventDecisionPipeline.decide` (lines 39-50): evaluate the
three classifiers and set `event["decision"]`. -/
def EventDecisionPipeline.decide_event (event : Event) : Event :=
  let importance := EventImportanceEvaluator.evaluate event
  let signal := EventSignalClassifier.classify event
  let action := EventActionMapper.map importance signal
  { event with decision := some ⟨importance, signal, action⟩ }

/-- `EventDecisionPipeline.decide` (lines 27-52): decide every event in order. -/
def EventDecisionPipeline.decide (events : List Event) : List Event :=
  events.map EventDecisionPipeline.decide_event

/-! ## Clustering (`clustering.py`) -/

/-- The unconditional label assignment `labels[similar_indices] = cluster_id`
of `_cosine_greedy_clustering` (line 66): every listed index is overwritten,
whether or not it already carried a label. -/
def NewsClusterer.assign_labels (labels : List Int) (similar_indices : List Nat)
    (cluster_id : Int) : List Int :=
  labels.enum.map (fun p => if p.1 ∈ similar_indices then cluster_id else p.2)

/-- One iteration of the greedy loop of `_cosine_greedy_clustering`
(lines 57-67), acting on the state `(labels, cluster_id)`. -/
def NewsClusterer.greedy_step (similarity : Nat → Nat → ℚ)
    (similarity_threshold : ℚ) (n : Nat) (st : List Int × Int) (i : Nat) :
    List Int × Int :=
  if st.1.getD i (-1) ≠ -1 then st
  else
    let similar_indices :=
      (List.range n).filter (fun j => decide (similarity_threshold < similarity i j))
    if MIN_CLUSTER_SIZE ≤ similar_indices.length then
      (NewsClusterer.assign_labels st.1 similar_indices st.2, st.2 + 1)
    else st

/-- `NewsClusterer._cosine_greedy_clustering` (lines 35-69) over an abstract
similarity matrix.  In the source the matrix is
`sklearn.cosine_similarity(embeddings)` (an external library call over float
vectors); it is kept as the parameter `similarity`.  Labels start at `-1`
(noise) and the points are visited in index order. -/
def NewsClusterer.cosine_greedy_clustering (similarity : Nat → Nat → ℚ)
    (similarity_threshold : ℚ) (n : Nat) : List Int :=
  ((List.range n).foldl
    (NewsClusterer.greedy_step similarity similarity_threshold n)
    (List.replicate n (-1), 0)).1

/-- `NewsClusterer._is_valid_event` (lines 71-105): size, distinct companies,
distinct signals and mean investment score thresholds.  Python `set`s become
`dedup`ed lists (only cardinalities are compared). -/
def NewsClusterer.is_valid_event (cluster : List NewsItem) : Bool :=
  if cluster.length < MIN_EVENT_SIZE then false
  else
    let all_companies := ((cluster.map (·.companies)).flatten).dedup
    let all_signals := ((cluster.map (·.signals)).flatten).dedup
    let avg_investment_score :=
      ((cluster.map (·.investment_score)).sum) / (cluster.length : ℚ)
    decide (MIN_COMPANY_COUNT ≤ all_companies.length) &&
      decide (MIN_SIGNAL_COUNT ≤ all_signals.length) &&
      decide (MIN_INVESTMENT_SCORE ≤ avg_investment_score)

/-- The label-selection part of `NewsClusterer.fit_cluster` (lines 107-154):
batches of at most 10 points use the greedy cosine algorithm with the default
threshold 0.7; larger batches call the external density clusterer
(HDBSCAN, or DBSCAN as fallback), kept abstract as `density_labels` and
allowed to fail.  `sim_of` produces the cosine-similarity matrix of the
embedding vectors (external sklearn call, see
`NewsClusterer.cosine_greedy_clustering`).  The summary statistics that
`fit_cluster` also returns are not modelled: `cluster_news` drops them. -/
def NewsClusterer.fit_cluster_labels
    (sim_of : List (List ℚ) → Nat → Nat → ℚ)
    (density_labels : List (List ℚ) → Except String (List Int))
    (embeddings : List (List ℚ)) : Except String (List Int) :=
  if embeddings.isEmpty then .ok []
  else if embeddings.length ≤ 10 then
    .ok (NewsClusterer.cosine_greedy_clustering (sim_of embeddings) (7/10)
      embeddings.length)
  else density_labels embeddings

/-- The dict-building loop of `cluster_news` (lines 173-177): group the
`(news, label)` pairs by label, keys in first-occurrence order (Python dict
insertion order), members in input order. -/
def NewsClusterer.add_to_groups (groups : List (Int × List NewsItem))
    (label : Int) (news : NewsItem) : List (Int × List NewsItem) :=
  match groups with
  | [] => [(label, [news])]
  | (l, members) :: rest =>
    if l = label then (l, members ++ [news]) :: rest
    else (l, members) :: NewsClusterer.add_to_groups rest label news

/-- The grouped clusters of `cluster_news`, built by folding
`add_to_groups` over the zipped `(news, label)` pairs. -/
def NewsClusterer.group_by_label (pairs : List (NewsItem × Int)) :
    List (Int × List NewsItem) :=
  pairs.foldl (fun groups p => NewsClusterer.add_to_groups groups p.2 p.1) []

/-- `NewsClusterer.cluster_news` (lines 156-193): fit labels, group by label,
drop the noise label `-1`, then keep only clusters accepted by
`_is_valid_event`.  The local `stats` dict that the source mutates on lines
189-191 (`original_clusters` / `valid_events` / `filtered_clusters`) is a
local variable that the function never returns, so it is not modelled. -/
def NewsClusterer.cluster_news
    (fit_labels : List (List ℚ) → Except String (List Int))
    (news_list : List NewsItem) (embeddings : List (List ℚ)) :
    Except String (List (List NewsItem)) :=
  if news_list.isEmpty || embeddings.isEmpty then .ok []
  else
    match fit_labels embeddings with
    | .error e => .error e
    | .ok labels =>
      let groups := NewsClusterer.group_by_label (news_list.zip labels)
      let valid_clusters := (groups.filter (fun g => g.1 != -1)).map (·.2)
      .ok (valid_clusters.filter NewsClusterer.is_valid_event)

/-! ## Python string helpers

`event_summary.py` uses `str.lower()`, `str.split()`, `str.isalpha()` and
lexicographic `min`/`max` over date strings.  The corresponding Lean `String`
library functions are byte-position based and do not reduce well, so the same
operations are written here over the underlying character lists. -/

/-- Python `str.lower()` (ASCII case folding suffices for the modelled data). -/
def pyLower (s : String) : String := ⟨s.data.map Char.toLower⟩

/-- Python `str.split()` with no argument: split on whitespace runs,
discarding empty fragments. -/
def pySplit (s : String) : List String :=
  (s.data.splitOnP Char.isWhitespace).filterMap
    (fun w => if w.isEmpty then none else some ⟨w⟩)

/-- Python `str.isalpha()`: non-empty and all alphabetic. -/
def pyIsAlpha (s : String) : Bool := !s.data.isEmpty && s.data.all Char.isAlpha

/-- Python `<` on strings: lexicographic comparison by code point. -/
def pyCharsLt : List Char → List Char → Bool
  | [], [] => false
  | [], _ :: _ => true
  | _ :: _, [] => false
  | a :: as, b :: bs =>
    if a.toNat < b.toNat then true
    else if b.toNat < a.toNat then false
    else pyCharsLt as bs

/-- Python `min(strings)` on a non-empty list (`""` on the empty list, which
the callers below rule out): the first minimal element. -/
def pyMinString : List String → String
  | [] => ""
  | h :: t => t.foldl (fun m x => if pyCharsLt x.data m.data then x else m) h

/-- Python `max(strings)` on a non-empty list (`""` on the empty list):
the first maximal element. -/
def pyMaxString : List String → String
  | [] => ""
  | h :: t => t.foldl (fun m x => if pyCharsLt m.data x.data then x else m) h

/-! ## Event summarizer (`event_summary.py`) -/

/-- `EventSummarizer.generate_event_keywords` (lines 21-48): lowercase words
of all titles and contents, keep alphabetic words longer than 3 characters,
deduplicate (Python collects into a `set`), keep at most 10. -/
def EventSummarizer.generate_event_keywords (news_cluster : List NewsItem) :
    List String :=
  if news_cluster.isEmpty then []
  else
    let words := (news_cluster.map
      (fun news => pySplit (pyLower news.title) ++ pySplit (pyLower news.content))).flatten
    ((words.filter (fun w => decide (3 < w.data.length) && pyIsAlpha w)).dedup).take 10

/-- `EventSummarizer._generate_text_summary` (lines 85-106): the single title
verbatim, or the first title plus a fixed suffix counting the others. -/
def EventSummarizer.generate_text_summary (news_cluster : List NewsItem) : String :=
  match news_cluster.map (·.title) with
  | [] => ""
  | [t] => t
  | t :: rest => t ++ "（另有" ++ toString rest.length ++ "条相关报道）"

/-- `EventSummarizer.generate_event_summary` (lines 50-83).  `now` stands for
`datetime.now().strftime('%Y%m%d%H%M%S')`, the wall-clock timestamp string at
this call.  The empty cluster yields `{}` in Python, modelled as `none`
(`summarize_events` tests the dict for truthiness). -/
def EventSummarizer.generate_event_summary (now : String)
    (news_cluster : List NewsItem) : Option Event :=
  if news_cluster.isEmpty then none
  else
    let titles := news_cluster.map (·.title)
    let sources := news_cluster.map (·.source)
    let dates := news_cluster.map (·.date)
    some {
      event_id := "event_" ++ now
      news_count := news_cluster.length
      sources := sources.dedup
      date_earliest := if dates.isEmpty then "" else pyMinString dates
      date_latest := if dates.isEmpty then "" else pyMaxString dates
      keywords := EventSummarizer.generate_event_keywords news_cluster
      representative_title := titles.headD ""
      summary := EventSummarizer.generate_text_summary news_cluster
      news_list := news_cluster
      decision := none }

/-- The in-place stable sort `events.sort(key=..., reverse=True)` of
`summarize_events` (line 126): stable descending order by `news_count`.
`List.insertionSort` with the relation "comes not after" reproduces Python's
stable sort: an element is inserted before exactly the already-placed
elements with a strictly smaller key. -/
def EventSummarizer.sort_desc_by_news_count (events : List Event) : List Event :=
  List.insertionSort (fun a b => b.news_count ≤ a.news_count) events

/-- `EventSummarizer.summarize_events` (lines 108-128).  `clock i` is the
timestamp string that `datetime.now()` yields during the `i`-th iteration of
the loop (one call per cluster, empty clusters included). -/
def EventSummarizer.summarize_events (clock : Nat → String)
    (news_clusters : List (List NewsItem)) : List Event :=
  EventSummarizer.sort_desc_by_news_count
    (news_clusters.enum.filterMap
      (fun p => EventSummarizer.generate_event_summary (clock p.1) p.2))

/-! ## Event pipeline (`event_pipeline.py`) -/

/-- Python `max(xs)` over naturals (callers guard against the empty list). -/
def pyMaxNat : List Nat → Nat
  | [] => 0
  | h :: t => t.foldl Nat.max h

/-- Python `min(xs)` over naturals (callers guard against the empty list). -/
def pyMinNat : List Nat → Nat
  | [] => 0
  | h :: t => t.foldl Nat.min h

/-- `EventPipeline.analyze_events` (lines 27-90), parameterised over its three
stages so that the `try/except` behaviour can be stated for every possible
stage outcome:

* `embed` models `self.embedder.embed_news` (the one external model call);
* `cluster` models `self.clusterer.cluster_news`;
* `summarize` models `self.summarizer.summarize_events`.

Each stage returns `Except String _`; a `.error` value plays the role of a
raised exception, and the single `except Exception` block of the source
becomes the three `.error` branches: the error message is recorded under the
`"error"` key of the statistics gathered so far, and `([], stats)` is
returned.  Keys are appended in exactly the order the source inserts them. -/
def EventPipeline.analyze_events
    (embed : List NewsItem → Except String (List (List ℚ)))
    (cluster : List NewsItem → List (List ℚ) → Except String (List (List NewsItem)))
    (summarize : List (List NewsItem) → Except String (List Event))
    (news_list : List NewsItem) : List Event × Stats :=
  if news_list.isEmpty then
    ([], [("total_news", .n 0), ("events_detected", .n 0)])
  else
    let stats : Stats := [("total_news", .n news_list.length)]
    match embed news_list with
    | .error e => ([], stats ++ [("error", .s e)])
    | .ok embeddings =>
      let stats := stats ++ [("embedding_completed", .b true)]
      match cluster news_list embeddings with
      | .error e => ([], stats ++ [("error", .s e)])
      | .ok news_clusters =>
        let stats := stats ++ [("clusters_detected", .n news_clusters.length)]
        let filtered_clusters :=
          news_clusters.filter (fun c => MIN_EVENT_SIZE ≤ c.length)
        let stats := stats ++ [("valid_events", .n filtered_clusters.length)]
        match summarize filtered_clusters with
        | .error e => ([], stats ++ [("error", .s e)])
        | .ok events =>
          let stats := stats ++ [("events_summarized", .n events.length)]
          let stats :=
            if events.isEmpty then stats
            else
              let event_sizes := events.map (·.news_count)
              let total_news_in_events := event_sizes.sum
              stats ++
                [("total_news_in_events", .n total_news_in_events),
                 ("coverage_rate",
                   .q ((total_news_in_events : ℚ) / (news_list.length : ℚ))),
                 ("avg_event_size",
                   .q ((event_sizes.sum : ℚ) / (event_sizes.length : ℚ))),
                 ("max_event_size", .n (pyMaxNat event_sizes)),
                 ("min_event_size", .n (pyMinNat event_sizes))]
          (events, stats)

/-- `EventPipeline.analyze_events` with the real clusterer and summarizer
plugged in (`__init__` wires `NewsClusterer` and `EventSummarizer`): only the
external calls remain parameters (`embed`, the similarity matrix `sim_of`,
the density clusterer `density_labels`, and the wall clock `clock`). -/
def EventPipeline.analyze_events_run
    (embed : List NewsItem → Except String (List (List ℚ)))
    (sim_of : List (List ℚ) → Nat → Nat → ℚ)
    (density_labels : List (List ℚ) → Except String (List Int))
    (clock : Nat → String)
    (news_list : List NewsItem) : List Event × Stats :=
  EventPipeline.analyze_events embed
    (NewsClusterer.cluster_news (NewsClusterer.fit_cluster_labels sim_of density_labels))
    (fun clusters => .ok (EventSummarizer.summarize_events clock clusters))
    news_list

/-! ## Text embedder cache (`embedding.py`) -/

/-- The embedding cache `self._embedding_cache`: a Python dict from cache key
to vector, modelled as an insertion-ordered association list with unique
keys. -/
abbrev EmbeddingCache := List (String × List ℚ)

/-- Dict lookup `self._embedding_cache[cache_key]` / `in` test. -/
def cacheFind (cache : EmbeddingCache) (key : String) : Option (List ℚ) :=
  (cache.find? (fun p => p.1 = key)).map (·.2)

/-- Dict store `self._embedding_cache[cache_key] = value`: overwrite in place
if the key exists, else append (Python dict insertion order). -/
def cacheStore (cache : EmbeddingCache) (key : String) (value : List ℚ) :
    EmbeddingCache :=
  if (cacheFind cache key).isSome then
    cache.map (fun p => if p.1 = key then (key, value) else p)
  else cache ++ [(key, value)]

/-- `TextEmbedder._generate_cache_key` (lines 29-39): the MD5 hex digest of
the text.  `hashlib.md5(...).hexdigest()` is a Python standard-library call;
it is kept abstract as the parameter `md5_hexdigest`.  The single property
the library guarantees and the proofs use — the digest is a 32-character
lowercase hexadecimal string — is stated separately as `IsHexDigest`. -/
def TextEmbedder.generate_cache_key (md5_hexdigest : String → String)
    (text : String) : String :=
  md5_hexdigest text

/-- A character of a hexadecimal digest: `0`-`9` or `a`-`f`. -/
def isHexChar (c : Char) : Bool := c.isDigit || ('a' ≤ c && c ≤ 'f')

/-- The format `hashlib.md5(...).hexdigest()` guarantees: 32 characters, each
hexadecimal. -/
def IsHexDigest (s : String) : Bool :=
  s.data.length == 32 && s.data.all isHexChar

/-- Python `key.startswith(prefix)` over the character lists. -/
def pyStartsWith (s p : String) : Bool := s.data.take p.data.length == p.data

/-- `TextEmbedder.embed_texts` (lines 66-114) acting on an explicit cache
state: partition into cached and uncached texts, encode the uncached batch
through the external model (`encode` models `self.model.encode`), store the
new vectors, and merge everything back into input order.  Returns the
embeddings together with the updated cache. -/
def TextEmbedder.embed_texts (md5_hexdigest : String → String)
    (encode : List String → List (List ℚ))
    (cache : EmbeddingCache) (texts : List String) :
    List (List ℚ) × EmbeddingCache :=
  if texts.isEmpty then ([], cache)
  else
    let cached_embeddings := texts.filterMap
      (fun t => cacheFind cache (TextEmbedder.generate_cache_key md5_hexdigest t))
    let uncached_texts := texts.filter
      (fun t => (cacheFind cache (TextEmbedder.generate_cache_key md5_hexdigest t)).isNone)
    let uncached_indices := (texts.enum.filter
      (fun p => (cacheFind cache (TextEmbedder.generate_cache_key md5_hexdigest p.2)).isNone)).map (·.1)
    let new_embeddings := encode uncached_texts
    let cache' := (uncached_texts.zip new_embeddings).foldl
      (fun c p => cacheStore c (TextEmbedder.generate_cache_key md5_hexdigest p.1) p.2) cache
    let merged := ((List.range texts.length).foldl
      (fun (st : List (List ℚ) × Nat × Nat) i =>
        if i ∈ uncached_indices then
          (st.1 ++ [new_embeddings.getD st.2.2 []], st.2.1, st.2.2 + 1)
        else
          (st.1 ++ [cached_embeddings.getD st.2.1 []], st.2.1 + 1, st.2.2))
      ([], 0, 0)).1
    (merged, cache')

/-- `TextEmbedder.get_cache_stats` (lines 137-148): the size of the cache and
the number of keys starting with `"hit_"` respectively `"miss_"`. -/
def TextEmbedder.get_cache_stats (cache : EmbeddingCache) : Stats :=
  [("cache_size", .n cache.length),
   ("cache_hits", .n (cache.countP (fun p => pyStartsWith p.1 "hit_"))),
   ("cache_misses", .n (cache.countP (fun p => pyStartsWith p.1 "miss_")))]

/-! ## Concrete fixtures used by witnesses and counterexamples -/

/-- The numeric rank of an importance label in the order Low < Medium < High. -/
def importanceRank (importance : String) : Nat :=
  if importance = "High" then 2 else if importance = "Medium" then 1 else 0

/-- Fixture news item (valid signals/companies, score 1). -/
def newsA : NewsItem :=
  { title := "AAAA", content := "", source := "src1", url := "u1",
    date := "2026-01-01", signals := ["funding"], companies := ["OpenAI"],
    investment_score := 1 }

/-- Fixture news item, same shape as `newsA`, different source and date. -/
def newsB : NewsItem :=
  { title := "BBBB", content := "", source := "src2", url := "u2",
    date := "2026-01-02", signals := ["funding"], companies := ["OpenAI"],
    investment_score := 1 }

/-- Fixture news item with no companies and no signals (fails validity). -/
def newsC : NewsItem :=
  { title := "CCCC", content := "", source := "src3", url := "u3",
    date := "2026-01-03", signals := [], companies := [],
    investment_score := 0 }

/-- Fixture news item with no companies and no signals (fails validity). -/
def newsD : NewsItem :=
  { title := "DDDD", content := "", source := "src4", url := "u4",
    date := "2026-01-04", signals := [], companies := [],
    investment_score := 0 }

/-- A cosine-similarity matrix of all ones: every pair of items is maximally
similar (identical embedding vectors). -/
def simOne : List (List ℚ) → Nat → Nat → ℚ := fun _ _ _ => 1

/-- A density clusterer that is never reached in the small-batch fixtures. -/
def densityNone : List (List ℚ) → Except String (List Int) :=
  fun _ => .error "density clusterer not invoked"

/-- A wall clock frozen within one second. -/
def clockConst : Nat → String := fun _ => "20260101120000"

/-- An embedder that succeeds, producing the vector `[1]` per item. -/
def embedOneVec : List NewsItem → Except String (List (List ℚ)) :=
  fun news_list => .ok (news_list.map (fun _ => [1]))

/-- An embedder whose model call fails. -/
def embedFail : List NewsItem → Except String (List (List ℚ)) :=
  fun _ => .error "embedding model unavailable"

/-- The event that the summarizer produces from the cluster
`[newsA, newsB]` under `clockConst`. -/
def eventAB : Event :=
  { event_id := "event_20260101120000", news_count := 2,
    sources := ["src1", "src2"], date_earliest := "2026-01-01",
    date_latest := "2026-01-02", keywords := ["aaaa", "bbbb"],
    representative_title := "AAAA",
    summary := "AAAA（另有1条相关报道）",
    news_list := [newsA, newsB], decision := none }

/-- Fixture event with one source and a decided importance of Low
(news_count 1 fails the medium tier). -/
def evSmall : Event :=
  { event_id := "e-small", news_count := 1, sources := ["src1", "src2"],
    date_earliest := "", date_latest := "", keywords := [],
    representative_title := "", summary := "",
    news_list := [newsA, newsB], decision := none }

/-- `evSmall` with `news_count` raised to the high tier. -/
def evBig : Event :=
  { event_id := "e-big", news_count := 3, sources := ["src1", "src2"],
    date_earliest := "", date_latest := "", keywords := [],
    representative_title := "", summary := "",
    news_list := [newsA, newsB], decision := none }

/-- A clusterer stage that succeeds with no clusters (fixture). -/
def clusterNone : List NewsItem → List (List ℚ) → Except String (List (List NewsItem)) :=
  fun _ _ => .ok []

/-- A summarizer stage that succeeds with no events (fixture). -/
def summarizeNone : List (List NewsItem) → Except String (List Event) :=
  fun _ => .ok []

/-- A summarizer stage that fails (fixture). -/
def summarizeFail : List (List NewsItem) → Except String (List Event) :=
  fun _ => .error "summary failure"

/-- A constant MD5 oracle (the digest of the empty byte string), used to
instantiate the hexdigest format hypothesis in witnesses. -/
def md5Const : String → String := fun _ => "d41d8cd98f00b204e9800998ecf8427e"

/-- An embedding model producing the vector `[1]` per text (fixture). -/
def encodeOne : List String → List (List ℚ) := fun texts => texts.map (fun _ => [1])

/-! ## Helper lemmas -/

/-- Importance ranks are bounded by 2. -/
theorem importanceRank_le_two (s : String) : importanceRank s ≤ 2 := by
  unfold importanceRank
  split
  · exact le_refl 2
  · split
    · exact Nat.le_succ 1
    · exact Nat.zero_le 2

/-- A threshold tier that matches at a news count keeps matching when the
news count grows (sources and score fixed). -/
theorem match_level_mono (mn ms : Nat) (sc : ℚ) (n1 n2 s : Nat) (a : ℚ)
    (h : n1 ≤ n2)
    (hm : EventImportanceEvaluator.match_level mn ms sc n1 s a = true) :
    EventImportanceEvaluator.match_level mn ms sc n2 s a = true := by
  simp only [EventImportanceEvaluator.match_level, Bool.and_eq_true,
    decide_eq_true_eq] at hm ⊢
  exact ⟨⟨hm.1.1.trans h, hm.1.2⟩, hm.2⟩

/-- Deciding an event a second time changes nothing: the three classifiers
ignore the `decision` field. -/
theorem decide_event_idem (e : Event) :
    EventDecisionPipeline.decide_event (EventDecisionPipeline.decide_event e) =
      EventDecisionPipeline.decide_event e := rfl

/-! ## C2 -/

/-- C2: `EventActionMapper.map` is a total function on strings: every pair is
mapped to one of Watch/Hold/Avoid; an invalid importance is clamped to "Low"
and an invalid signal to "Neutral" before the table lookup; and on valid
inputs the 3×3 table holds (High+Positive=Hold, High+Neutral=Watch,
High+Risk=Avoid, Medium+Positive=Watch, Medium+Neutral=Watch,
Medium+Risk=Avoid, Low+anything=Avoid). -/
theorem actionMapper_total_clamp_table (importance signal : String) :
    (EventActionMapper.map importance signal = "Watch" ∨
      EventActionMapper.map importance signal = "Hold" ∨
      EventActionMapper.map importance signal = "Avoid") ∧
    (EventActionMapper.valid_importance.contains importance = false →
      EventActionMapper.map importance signal =
        EventActionMapper.map "Low" signal) ∧
    (EventActionMapper.valid_signal.contains signal = false →
      EventActionMapper.map importance signal =
        EventActionMapper.map importance "Neutral") ∧
    EventActionMapper.map "High" "Positive" = "Hold" ∧
    EventActionMapper.map "High" "Neutral" = "Watch" ∧
    EventActionMapper.map "High" "Risk" = "Avoid" ∧
    EventActionMapper.map "Medium" "Positive" = "Watch" ∧
    EventActionMapper.map "Medium" "Neutral" = "Watch" ∧
    EventActionMapper.map "Medium" "Risk" = "Avoid" ∧
    EventActionMapper.map "Low" "Positive" = "Avoid" ∧
    EventActionMapper.map "Low" "Neutral" = "Avoid" ∧
    EventActionMapper.map "Low" "Risk" = "Avoid" := by
  refine ⟨?_, ?_, ?_, by decide, by decide, by decide, by decide, by decide,
    by decide, by decide, by decide, by decide⟩
  · by_cases hI : importance = "High" <;> by_cases hM : importance = "Medium" <;>
      by_cases hL : importance = "Low" <;>
        by_cases hP : signal = "Positive" <;> by_cases hN : signal = "Neutral" <;>
          by_cases hR : signal = "Risk" <;>
            simp [EventActionMapper.map, EventActionMapper.valid_importance,
              EventActionMapper.valid_signal, hI, hM, hL, hP, hN, hR]
  · intro h
    unfold EventActionMapper.map
    simp only [h, Bool.false_eq_true, if_false]
    have hlow : EventActionMapper.valid_importance.contains "Low" = true := by decide
    simp only [hlow, if_true]
  · intro h
    unfold EventActionMapper.map
    simp only [h, Bool.false_eq_true, if_false]
    have hneu : EventActionMapper.valid_signal.contains "Neutral" = true := by decide
    simp only [hneu, if_true]

/-- C2-witness: the theorem applied at the invalid pair `("bogus","bogus")`
(and at `("bogus","Positive")` for the signal-side clamp). -/
theorem actionMapper_total_clamp_table_witness :
    EventActionMapper.valid_importance.contains "bogus" = false ∧
    EventActionMapper.valid_signal.contains "bogus" = false ∧
    (EventActionMapper.map "bogus" "bogus" = "Watch" ∨
      EventActionMapper.map "bogus" "bogus" = "Hold" ∨
      EventActionMapper.map "bogus" "bogus" = "Avoid") ∧
    EventActionMapper.map "bogus" "bogus" = EventActionMapper.map "Low" "bogus" ∧
    EventActionMapper.map "bogus" "bogus" =
      EventActionMapper.map "bogus" "Neutral" :=
  ⟨by decide, by decide, (actionMapper_total_clamp_table "bogus" "bogus").1,
    (actionMapper_total_clamp_table "bogus" "bogus").2.1 (by decide),
    (actionMapper_total_clamp_table "bogus" "bogus").2.2.1 (by decide)⟩

/-! ## C4 -/

/-- C4: `EventSignalClassifier.classify` returns one of the three labels and
follows the decision table on the union of the event's signal tags:
Positive exactly when the union meets `POSITIVE_SIGNALS` but not
`RISK_SIGNALS`; Risk exactly in the mirrored case; Neutral exactly when the
union meets both (mixed signal) or neither.  The embedded function is total,
modelling the source's catch-all that returns "Neutral". -/
theorem signalClassifier_decision_table (event : Event) :
    (EventSignalClassifier.classify event = "Positive" ∨
      EventSignalClassifier.classify event = "Neutral" ∨
      EventSignalClassifier.classify event = "Risk") ∧
    (EventSignalClassifier.classify event = "Positive" ↔
      ((EventSignalClassifier.collect_signals event).any
          (fun s => POSITIVE_SIGNALS.contains s) = true ∧
        (EventSignalClassifier.collect_signals event).any
          (fun s => RISK_SIGNALS.contains s) = false)) ∧
    (EventSignalClassifier.classify event = "Risk" ↔
      ((EventSignalClassifier.collect_signals event).any
          (fun s => RISK_SIGNALS.contains s) = true ∧
        (EventSignalClassifier.collect_signals event).any
          (fun s => POSITIVE_SIGNALS.contains s) = false)) ∧
    (EventSignalClassifier.classify event = "Neutral" ↔
      (((EventSignalClassifier.collect_signals event).any
          (fun s => POSITIVE_SIGNALS.contains s) = true ∧
        (EventSignalClassifier.collect_signals event).any
          (fun s => RISK_SIGNALS.contains s) = true) ∨
       ((EventSignalClassifier.collect_signals event).any
          (fun s => POSITIVE_SIGNALS.contains s) = false ∧
        (EventSignalClassifier.collect_signals event).any
          (fun s => RISK_SIGNALS.contains s) = false))) := by
  cases hp : (EventSignalClassifier.collect_signals event).any
      (fun s => POSITIVE_SIGNALS.contains s) <;>
    cases hr : (EventSignalClassifier.collect_signals event).any
        (fun s => RISK_SIGNALS.contains s) <;>
      simp only [EventSignalClassifier.classify, hp, hr, Bool.not_true,
        Bool.not_false, Bool.and_true, Bool.and_false, Bool.true_and,
        Bool.false_and, if_true, if_false] <;>
      simp

/-! ## C9 -/

/-- C9: `EventDecisionPipeline.decide` is idempotent — deciding an
already-decided event list reproduces exactly the same events with identical
decision triples. -/
theorem decisionPipeline_decide_idempotent (events : List Event) :
    EventDecisionPipeline.decide (EventDecisionPipeline.decide events) =
      EventDecisionPipeline.decide events := by
  unfold EventDecisionPipeline.decide
  rw [List.map_map]
  exact List.map_congr_left (fun e _ => decide_event_idem e)

/-! ## C5 -/

/-- C5: importance is monotone in `news_count` when sources and news list
(hence mean investment score) are held fixed, in the order
Low < Medium < High; and whenever the high tier's source and score conditions
hold and `news_count` reaches the high tier's minimum, the importance is
exactly "High". -/
theorem importance_evaluate_monotone_in_news_count :
    (∀ e1 e2 : Event, e1.sources = e2.sources → e1.news_list = e2.news_list →
      e1.news_count ≤ e2.news_count →
      importanceRank (EventImportanceEvaluator.evaluate e1) ≤
        importanceRank (EventImportanceEvaluator.evaluate e2)) ∧
    (∀ e : Event, HIGH_MIN_SOURCES ≤ e.sources.dedup.length →
      HIGH_MIN_SCORE ≤ EventImportanceEvaluator.avg_investment_score e →
      HIGH_MIN_NEWS ≤ e.news_count →
      EventImportanceEvaluator.evaluate e = "High") := by
  constructor
  · intro e1 e2 hs hn hc
    have hsrc : e2.sources.dedup.length = e1.sources.dedup.length := by rw [hs]
    have havg : EventImportanceEvaluator.avg_investment_score e2 =
        EventImportanceEvaluator.avg_investment_score e1 := by
      unfold EventImportanceEvaluator.avg_investment_score
      rw [hn]
    unfold EventImportanceEvaluator.evaluate
    rw [hsrc, havg]
    by_cases hH2 : EventImportanceEvaluator.match_level HIGH_MIN_NEWS
        HIGH_MIN_SOURCES HIGH_MIN_SCORE e2.news_count e1.sources.dedup.length
        (EventImportanceEvaluator.avg_investment_score e1) = true
    · simp only [hH2, if_true]
      exact le_trans (importanceRank_le_two _) (le_refl 2)
    · have hH1 : EventImportanceEvaluator.match_level HIGH_MIN_NEWS
          HIGH_MIN_SOURCES HIGH_MIN_SCORE e1.news_count e1.sources.dedup.length
          (EventImportanceEvaluator.avg_investment_score e1) = false := by
        by_contra hne
        exact hH2 (match_level_mono _ _ _ _ _ _ _ hc
          (Bool.of_not_eq_false hne))
      by_cases hM2 : EventImportanceEvaluator.match_level MEDIUM_MIN_NEWS
          MEDIUM_MIN_SOURCES MEDIUM_MIN_SCORE e2.news_count
          e1.sources.dedup.length
          (EventImportanceEvaluator.avg_investment_score e1) = true
      · simp only [hH1, hH2, hM2, Bool.false_eq_true, if_false, if_true]
        split <;> simp [importanceRank]
      · have hM1 : EventImportanceEvaluator.match_level MEDIUM_MIN_NEWS
            MEDIUM_MIN_SOURCES MEDIUM_MIN_SCORE e1.news_count
            e1.sources.dedup.length
            (EventImportanceEvaluator.avg_investment_score e1) = false := by
          by_contra hne
          exact hM2 (match_level_mono _ _ _ _ _ _ _ hc
            (Bool.of_not_eq_false hne))
        simp [hH1, hH2, hM1, hM2]
  · intro e h1 h2 h3
    unfold EventImportanceEvaluator.evaluate
    have hm : EventImportanceEvaluator.match_level HIGH_MIN_NEWS
        HIGH_MIN_SOURCES HIGH_MIN_SCORE e.news_count e.sources.dedup.length
        (EventImportanceEvaluator.avg_investment_score e) = true := by
      simp only [EventImportanceEvaluator.match_level, Bool.and_eq_true,
        decide_eq_true_eq]
      exact ⟨⟨h3, h1⟩, h2⟩
    simp only [hm, if_true]

/-- C5-witness: the theorem applied at the fixture pair `evSmall`/`evBig`
(identical sources and news list, news counts 1 ≤ 3) and at `evBig` for the
high-tier part. -/
theorem importance_evaluate_monotone_witness :
    evSmall.sources = evBig.sources ∧ evSmall.news_list = evBig.news_list ∧
    evSmall.news_count ≤ evBig.news_count ∧
    importanceRank (EventImportanceEvaluator.evaluate evSmall) ≤
      importanceRank (EventImportanceEvaluator.evaluate evBig) ∧
    HIGH_MIN_SOURCES ≤ evBig.sources.dedup.length ∧
    HIGH_MIN_SCORE ≤ EventImportanceEvaluator.avg_investment_score evBig ∧
    HIGH_MIN_NEWS ≤ evBig.news_count ∧
    EventImportanceEvaluator.evaluate evBig = "High" := by
  have hscore : HIGH_MIN_SCORE ≤
      EventImportanceEvaluator.avg_investment_score evBig := by
    norm_num [EventImportanceEvaluator.avg_investment_score, evBig, newsA,
      newsB, HIGH_MIN_SCORE]
  refine ⟨rfl, rfl, by decide, ?_, by decide, hscore, by decide, ?_⟩
  · exact importance_evaluate_monotone_in_news_count.1 evSmall evBig rfl rfl
      (by decide)
  · exact importance_evaluate_monotone_in_news_count.2 evBig (by decide)
      hscore (by decide)

/-! ## C1 -/

/-- C1: for every non-empty input, whichever of the three pipeline stages
(embedding, clustering, summarization) fails first, `analyze_events` catches
the failure instead of propagating it: it returns the empty event list
together with the statistics gathered so far extended with the `"error"` key
holding the error message.  (On the empty input no stage is ever invoked, and
the function is total by construction, modelling "never raises".) -/
theorem analyze_events_catches_errors
    (embed : List NewsItem → Except String (List (List ℚ)))
    (cluster : List NewsItem → List (List ℚ) → Except String (List (List NewsItem)))
    (summarize : List (List NewsItem) → Except String (List Event))
    (news_list : List NewsItem) (msg : String)
    (hne : news_list.isEmpty = false) :
    (embed news_list = .error msg →
      (EventPipeline.analyze_events embed cluster summarize news_list).1 = [] ∧
      statsGet (EventPipeline.analyze_events embed cluster summarize news_list).2
        "error" = some (.s msg)) ∧
    (∀ embeddings, embed news_list = .ok embeddings →
      cluster news_list embeddings = .error msg →
      (EventPipeline.analyze_events embed cluster summarize news_list).1 = [] ∧
      statsGet (EventPipeline.analyze_events embed cluster summarize news_list).2
        "error" = some (.s msg)) ∧
    (∀ embeddings clusters, embed news_list = .ok embeddings →
      cluster news_list embeddings = .ok clusters →
      summarize (clusters.filter (fun c => MIN_EVENT_SIZE ≤ c.length)) = .error msg →
      (EventPipeline.analyze_events embed cluster summarize news_list).1 = [] ∧
      statsGet (EventPipeline.analyze_events embed cluster summarize news_list).2
        "error" = some (.s msg)) := by
  refine ⟨?_, ?_, ?_⟩
  · intro hemb
    unfold EventPipeline.analyze_events
    simp only [hne, Bool.false_eq_true, if_false, hemb]
    simp [statsGet, List.find?]
  · intro embeddings hemb hclu
    unfold EventPipeline.analyze_events
    simp only [hne, Bool.false_eq_true, if_false, hemb]
    simp only [hclu]
    simp [statsGet, List.find?]
  · intro embeddings clusters hemb hclu hsum
    unfold EventPipeline.analyze_events
    simp only [hne, Bool.false_eq_true, if_false, hemb]
    simp only [hclu]
    simp only [hsum]
    simp [statsGet, List.find?]

/-- C1-witness: the theorem applied to a failing embedder on the singleton
input `[newsA]`. -/
theorem analyze_events_catches_errors_witness :
    ([newsA].isEmpty = false) ∧
    embedFail [newsA] = .error "embedding model unavailable" ∧
    ((EventPipeline.analyze_events embedFail clusterNone summarizeNone [newsA]).1 = [] ∧
      statsGet
        (EventPipeline.analyze_events embedFail clusterNone summarizeNone [newsA]).2
        "error" = some (.s "embedding model unavailable")) :=
  ⟨rfl, rfl,
    (analyze_events_catches_errors embedFail clusterNone summarizeNone [newsA]
      "embedding model unavailable" rfl).1 rfl⟩

/-! ## Clustering evaluation lemmas -/

/-- A single point can never reach `MIN_CLUSTER_SIZE`, so greedy clustering
marks it as noise, whatever the similarity matrix and threshold. -/
theorem greedy_singleton (sim : Nat → Nat → ℚ) (thr : ℚ) :
    NewsClusterer.cosine_greedy_clustering sim thr 1 = [-1] := by
  unfold NewsClusterer.cosine_greedy_clustering NewsClusterer.greedy_step
  by_cases hp : thr < sim 0 0 <;>
    simp [hp, List.range_succ, MIN_CLUSTER_SIZE, List.filter_cons]

/-- Greedy clustering of two points under the all-ones similarity matrix:
point 0 sweeps both points into cluster 0 and point 1 is then skipped. -/
theorem greedy_pair_all_ones :
    NewsClusterer.cosine_greedy_clustering (fun _ _ => (1 : ℚ)) (7/10) 2 =
      [0, 0] := by
  have h : ((7 : ℚ)/10 < 1) := by norm_num
  unfold NewsClusterer.cosine_greedy_clustering NewsClusterer.greedy_step
    NewsClusterer.assign_labels
  simp [List.range_succ, MIN_CLUSTER_SIZE, List.filter_cons, decide_eq_true h,
    List.enum, List.enumFrom]

/-- Fitting two identical unit embeddings goes through the greedy branch and
yields one two-point cluster. -/
theorem fit_pair_all_ones :
    NewsClusterer.fit_cluster_labels simOne densityNone [[1], [1]] =
      .ok [0, 0] :=
  congrArg Except.ok greedy_pair_all_ones

/-- The fixture cluster `[newsA, newsB]` passes the validity filter
(1 company, 1 signal, mean score 1 ≥ 0.3). -/
theorem is_valid_event_AB :
    NewsClusterer.is_valid_event [newsA, newsB] = true := by
  unfold NewsClusterer.is_valid_event
  norm_num [newsA, newsB, MIN_EVENT_SIZE, MIN_COMPANY_COUNT, MIN_SIGNAL_COUNT,
    MIN_INVESTMENT_SCORE, List.dedup_cons_of_mem, List.dedup_cons_of_not_mem]

/-- The fixture cluster `[newsC, newsD]` fails the validity filter: it has no
companies at all, and the conjunction short-circuits. -/
theorem is_valid_event_CD :
    NewsClusterer.is_valid_event [newsC, newsD] = false := by
  unfold NewsClusterer.is_valid_event
  simp [newsC, newsD, MIN_EVENT_SIZE, MIN_COMPANY_COUNT]

/-- Clustering the valid fixture pair produces exactly one cluster. -/
theorem cluster_news_AB :
    NewsClusterer.cluster_news
      (NewsClusterer.fit_cluster_labels simOne densityNone)
      [newsA, newsB] [[1], [1]] = .ok [[newsA, newsB]] := by
  unfold NewsClusterer.cluster_news
  simp only [List.isEmpty_cons, Bool.or_self, Bool.false_eq_true, if_false,
    fit_pair_all_ones]
  simp [NewsClusterer.group_by_label, NewsClusterer.add_to_groups,
    List.filter_cons, is_valid_event_AB]

/-- Clustering the invalid fixture pair finds one raw cluster but rejects it,
returning no clusters. -/
theorem cluster_news_CD :
    NewsClusterer.cluster_news
      (NewsClusterer.fit_cluster_labels simOne densityNone)
      [newsC, newsD] [[1], [1]] = .ok [] := by
  unfold NewsClusterer.cluster_news
  simp only [List.isEmpty_cons, Bool.or_self, Bool.false_eq_true, if_false,
    fit_pair_all_ones]
  simp [NewsClusterer.group_by_label, NewsClusterer.add_to_groups,
    List.filter_cons, is_valid_event_CD]

/-! ## Grouping and membership lemmas -/

/-- Members of a group after one `add_to_groups` step either were already in
some group with the same label, or are the newly added item under the new
label. -/
theorem add_to_groups_mem (groups : List (Int × List NewsItem)) (label : Int)
    (news : NewsItem) (g : Int × List NewsItem)
    (hg : g ∈ NewsClusterer.add_to_groups groups label news) (x : NewsItem)
    (hx : x ∈ g.2) :
    (∃ g' ∈ groups, g'.1 = g.1 ∧ x ∈ g'.2) ∨ (x = news ∧ g.1 = label) := by
  revert hg
  induction groups with
  | nil =>
    intro hg
    simp only [NewsClusterer.add_to_groups, List.mem_singleton] at hg
    subst hg
    simp only [List.mem_singleton] at hx
    exact Or.inr ⟨hx, rfl⟩
  | cons hd tl ih =>
    intro hg
    obtain ⟨l, ms⟩ := hd
    simp only [NewsClusterer.add_to_groups] at hg
    by_cases hl : l = label
    · rw [if_pos hl] at hg
      rcases List.mem_cons.mp hg with hg1 | hg2
      · subst hg1
        rcases List.mem_append.mp hx with hx1 | hx2
        · exact Or.inl ⟨(l, ms), List.mem_cons_self _ _, rfl, hx1⟩
        · simp only [List.mem_singleton] at hx2
          exact Or.inr ⟨hx2, hl⟩
      · exact Or.inl ⟨g, List.mem_cons_of_mem _ hg2, rfl, hx⟩
    · rw [if_neg hl] at hg
      rcases List.mem_cons.mp hg with hg1 | hg2
      · subst hg1
        exact Or.inl ⟨(l, ms), List.mem_cons_self _ _, rfl, hx⟩
      · rcases ih hg2 with ⟨g', hg', he, hx'⟩ | hr
        · exact Or.inl ⟨g', List.mem_cons_of_mem _ hg', he, hx'⟩
        · exact Or.inr hr

/-- Invariant of the grouping fold: any per-pair property carries over to
every member of every produced group, tagged with the group's label. -/
theorem group_fold_mem (S : NewsItem → Int → Prop) :
    ∀ (pairs : List (NewsItem × Int)) (acc : List (Int × List NewsItem)),
    (∀ g ∈ acc, ∀ x ∈ g.2, S x g.1) → (∀ p ∈ pairs, S p.1 p.2) →
    ∀ g ∈ pairs.foldl
      (fun gs p => NewsClusterer.add_to_groups gs p.2 p.1) acc,
    ∀ x ∈ g.2, S x g.1 := by
  intro pairs
  induction pairs with
  | nil => intro acc hacc _ g hg x hx; exact hacc g hg x hx
  | cons hd tl ih =>
    intro acc hacc hp g hg x hx
    rw [List.foldl_cons] at hg
    refine ih (NewsClusterer.add_to_groups acc hd.2 hd.1) ?_ ?_ g hg x hx
    · intro g' hg' x' hx'
      rcases add_to_groups_mem acc hd.2 hd.1 g' hg' x' hx' with
        ⟨g'', hg'', he, hx''⟩ | ⟨hxe, hge⟩
      · rw [← he]
        exact hacc g'' hg'' x' hx''
      · rw [hxe, hge]
        exact hp hd (List.mem_cons_self _ _)
    · intro p hp'
      exact hp p (List.mem_cons_of_mem _ hp')

/-- Every member of a group produced by `group_by_label` occurred in the
input paired with the group's label. -/
theorem group_by_label_mem (pairs : List (NewsItem × Int))
    (g : Int × List NewsItem) (hg : g ∈ NewsClusterer.group_by_label pairs)
    (x : NewsItem) (hx : x ∈ g.2) : (x, g.1) ∈ pairs :=
  group_fold_mem (fun a l => (a, l) ∈ pairs) pairs []
    (by simp) (fun p hp => by simpa using hp) g hg x hx

/-- Soundness of `cluster_news`: every returned cluster passed the validity
filter, and all its members carry one common non-noise label from the fitted
label list. -/
theorem cluster_news_sound
    (fit : List (List ℚ) → Except String (List Int))
    (news_list : List NewsItem) (embeddings : List (List ℚ))
    (clusters : List (List NewsItem)) (labels : List Int)
    (hfit : fit embeddings = .ok labels)
    (hok : NewsClusterer.cluster_news fit news_list embeddings = .ok clusters)
    (c : List NewsItem) (hc : c ∈ clusters) :
    NewsClusterer.is_valid_event c = true ∧
    ∃ l : Int, l ≠ -1 ∧ ∀ x ∈ c, (x, l) ∈ news_list.zip labels := by
  unfold NewsClusterer.cluster_news at hok
  by_cases h0 : (news_list.isEmpty || embeddings.isEmpty) = true
  · rw [if_pos h0] at hok
    injection hok with h
    subst h
    exact absurd hc (List.not_mem_nil c)
  · rw [if_neg h0, hfit] at hok
    injection hok with h
    subst h
    have hmf := List.mem_filter.mp hc
    obtain ⟨g, hg, hgc⟩ := List.mem_map.mp hmf.1
    have hgf := List.mem_filter.mp hg
    refine ⟨hmf.2, g.1, ?_, ?_⟩
    · intro he
      rw [he] at hgf
      simp at hgf
    · intro x hx
      rw [← hgc] at hx
      exact group_by_label_mem _ g hgf.1 x hx

/-- Every event produced by `summarize_events` stems from one input cluster:
its `news_list` is that cluster and `news_count` its length. -/
theorem summarize_events_mem (clock : Nat → String)
    (clusters : List (List NewsItem)) (e : Event)
    (he : e ∈ EventSummarizer.summarize_events clock clusters) :
    ∃ c ∈ clusters, e.news_list = c ∧ e.news_count = c.length := by
  unfold EventSummarizer.summarize_events
    EventSummarizer.sort_desc_by_news_count at he
  rw [List.mem_insertionSort] at he
  obtain ⟨p, hp, hgen⟩ := List.mem_filterMap.mp he
  refine ⟨p.2, ?_, ?_⟩
  · have hm : p.2 ∈ clusters.enum.map Prod.snd := List.mem_map_of_mem Prod.snd hp
    rwa [List.enum_map_snd] at hm
  · unfold EventSummarizer.generate_event_summary at hgen
    by_cases hne : p.2.isEmpty = true
    · rw [if_pos hne] at hgen
      exact absurd hgen (by simp)
    · rw [if_neg hne] at hgen
      injection hgen with h
      rw [← h]
      exact ⟨rfl, rfl⟩

/-! ## Run evaluation lemmas -/

/-- Summarizing the single valid fixture cluster yields exactly `eventAB`. -/
theorem summarize_AB :
    EventSummarizer.summarize_events clockConst [[newsA, newsB]] = [eventAB] := by
  decide

/-- The full pipeline on the valid fixture pair produces exactly `eventAB`. -/
theorem run_pair_AB_events :
    (EventPipeline.analyze_events_run embedOneVec simOne densityNone clockConst
      [newsA, newsB]).1 = [eventAB] := by
  have hemb : embedOneVec [newsA, newsB] = .ok [[1], [1]] := rfl
  have hfil : ([[newsA, newsB]] : List (List NewsItem)).filter
      (fun c => MIN_EVENT_SIZE ≤ c.length) = [[newsA, newsB]] := by decide
  unfold EventPipeline.analyze_events_run EventPipeline.analyze_events
  simp only [List.isEmpty_cons, Bool.false_eq_true, if_false, hemb]
  simp only [cluster_news_AB]
  simp only [hfil, summarize_AB]

/-- The full pipeline on a singleton input: the single point is noise, no
clusters and no events are produced, and the statistics contain exactly the
five keys of the successful path. -/
theorem analyze_run_singleton
    (embed : List NewsItem → Except String (List (List ℚ)))
    (sim_of : List (List ℚ) → Nat → Nat → ℚ)
    (density_labels : List (List ℚ) → Except String (List Int))
    (clock : Nat → String) (x : NewsItem) (v : List ℚ)
    (hemb : embed [x] = .ok [v]) :
    EventPipeline.analyze_events_run embed sim_of density_labels clock [x] =
      ([], [("total_news", .n 1), ("embedding_completed", .b true),
            ("clusters_detected", .n 0), ("valid_events", .n 0),
            ("events_summarized", .n 0)]) := by
  have hfit : NewsClusterer.fit_cluster_labels sim_of density_labels [v] =
      .ok [-1] := by
    unfold NewsClusterer.fit_cluster_labels
    simp [greedy_singleton]
  have hclu : NewsClusterer.cluster_news
      (NewsClusterer.fit_cluster_labels sim_of density_labels) [x] [v] =
      .ok [] := by
    unfold NewsClusterer.cluster_news
    simp only [List.isEmpty_cons, Bool.or_self, Bool.false_eq_true, if_false,
      hfit]
    simp [NewsClusterer.group_by_label, NewsClusterer.add_to_groups,
      List.filter_cons]
  unfold EventPipeline.analyze_events_run EventPipeline.analyze_events
  simp only [List.isEmpty_cons, Bool.false_eq_true, if_false, hemb]
  simp only [hclu]
  simp [EventSummarizer.summarize_events, EventSummarizer.sort_desc_by_news_count]

/-- The full pipeline on the invalid fixture pair: the raw cluster is
silently rejected; no events; the statistics hold exactly five keys. -/
theorem run_pair_CD :
    EventPipeline.analyze_events_run embedOneVec simOne densityNone clockConst
      [newsC, newsD] =
      ([], [("total_news", .n 2), ("embedding_completed", .b true),
            ("clusters_detected", .n 0), ("valid_events", .n 0),
            ("events_summarized", .n 0)]) := by
  have hemb : embedOneVec [newsC, newsD] = .ok [[1], [1]] := rfl
  unfold EventPipeline.analyze_events_run EventPipeline.analyze_events
  simp only [List.isEmpty_cons, Bool.false_eq_true, if_false, hemb]
  simp only [cluster_news_CD]
  simp [EventSummarizer.summarize_events, EventSummarizer.sort_desc_by_news_count]

/-! ## C3 -/

/-- C3: every event produced by the full pipeline satisfies
`news_count = news_list.length ≥ MIN_EVENT_SIZE`, its underlying cluster
passed the validity filter, and all of its members carried one common
non-noise cluster label (never the noise label `-1`). -/
theorem analyze_events_event_invariants
    (embed : List NewsItem → Except String (List (List ℚ)))
    (sim_of : List (List ℚ) → Nat → Nat → ℚ)
    (density_labels : List (List ℚ) → Except String (List Int))
    (clock : Nat → String) (news_list : List NewsItem)
    (embeddings : List (List ℚ)) (labels : List Int) (e : Event)
    (hemb : embed news_list = .ok embeddings)
    (hfit : NewsClusterer.fit_cluster_labels sim_of density_labels embeddings =
      .ok labels)
    (he : e ∈ (EventPipeline.analyze_events_run embed sim_of density_labels
      clock news_list).1) :
    e.news_count = e.news_list.length ∧
    MIN_EVENT_SIZE ≤ e.news_count ∧
    NewsClusterer.is_valid_event e.news_list = true ∧
    ∃ l : Int, l ≠ -1 ∧ ∀ x ∈ e.news_list, (x, l) ∈ news_list.zip labels := by
  unfold EventPipeline.analyze_events_run EventPipeline.analyze_events at he
  by_cases hne : news_list.isEmpty = true
  · rw [if_pos hne] at he
    exact absurd he (List.not_mem_nil e)
  · simp only [hne, Bool.false_eq_true, if_false, hemb] at he
    rcases hclu : NewsClusterer.cluster_news
        (NewsClusterer.fit_cluster_labels sim_of density_labels) news_list
        embeddings with msg | clusters
    · simp only [hclu] at he
      exact absurd he (List.not_mem_nil e)
    · simp only [hclu] at he
      have he' : e ∈ EventSummarizer.summarize_events clock
          (clusters.filter (fun c => MIN_EVENT_SIZE ≤ c.length)) := he
      obtain ⟨c, hcmem, hnl, hnc⟩ := summarize_events_mem clock _ e he'
      have hcf := List.mem_filter.mp hcmem
      obtain ⟨hvalid, l, hl, hmem⟩ :=
        cluster_news_sound _ news_list embeddings clusters labels hfit hclu c
          hcf.1
      refine ⟨by rw [hnl, hnc], ?_, by rw [hnl]; exact hvalid,
        l, hl, by rw [hnl]; exact hmem⟩
      rw [hnc]
      exact of_decide_eq_true hcf.2

/-- C3-witness: the theorem applied to the concrete two-item run, whose only
event is `eventAB`. -/
theorem analyze_events_event_invariants_witness :
    embedOneVec [newsA, newsB] = .ok [[1], [1]] ∧
    NewsClusterer.fit_cluster_labels simOne densityNone [[1], [1]] =
      .ok [0, 0] ∧
    eventAB ∈ (EventPipeline.analyze_events_run embedOneVec simOne densityNone
      clockConst [newsA, newsB]).1 ∧
    (eventAB.news_count = eventAB.news_list.length ∧
     MIN_EVENT_SIZE ≤ eventAB.news_count ∧
     NewsClusterer.is_valid_event eventAB.news_list = true ∧
     ∃ l : Int, l ≠ -1 ∧ ∀ x ∈ eventAB.news_list,
       (x, l) ∈ [newsA, newsB].zip [0, 0]) := by
  have hm : eventAB ∈ (EventPipeline.analyze_events_run embedOneVec simOne
      densityNone clockConst [newsA, newsB]).1 := by
    rw [run_pair_AB_events]
    exact List.mem_singleton.mpr rfl
  exact ⟨rfl, fit_pair_all_ones, hm,
    analyze_events_event_invariants embedOneVec simOne densityNone clockConst
      [newsA, newsB] [[1], [1]] [0, 0] eventAB rfl fit_pair_all_ones hm⟩

/-! ## C6 -/

/-- C6-counterexample: a single-item input (below `MIN_EVENT_SIZE`) returns an
empty event list, but the returned statistics do **not** contain the key
`events_detected` — the claim that `events_detected` is present and zero
fails for every non-empty short input. -/
theorem analyze_events_singleton_missing_key :
    ([newsA].length < MIN_EVENT_SIZE) ∧
    (EventPipeline.analyze_events_run embedOneVec simOne densityNone clockConst
      [newsA]).1 = [] ∧
    statsGet (EventPipeline.analyze_events_run embedOneVec simOne densityNone
      clockConst [newsA]).2 "events_detected" = none := by
  have h := analyze_run_singleton embedOneVec simOne densityNone clockConst
    newsA [1] rfl
  rw [h]
  exact ⟨by decide, rfl, by decide⟩

/-- C6 (amended): the empty input returns `([], stats)` with
`events_detected = 0` recorded; a single-item input (with a successful
one-vector embedding) also returns an empty event list, but its statistics
record `events_summarized = 0` (and `valid_events = 0`) without any
`events_detected` key. -/
theorem analyze_events_small_inputs :
    (∀ (embed : List NewsItem → Except String (List (List ℚ)))
       (cluster : List NewsItem → List (List ℚ) →
         Except String (List (List NewsItem)))
       (summarize : List (List NewsItem) → Except String (List Event)),
      EventPipeline.analyze_events embed cluster summarize [] =
        ([], [("total_news", .n 0), ("events_detected", .n 0)])) ∧
    (∀ (embed : List NewsItem → Except String (List (List ℚ)))
       (sim_of : List (List ℚ) → Nat → Nat → ℚ)
       (density_labels : List (List ℚ) → Except String (List Int))
       (clock : Nat → String) (x : NewsItem) (v : List ℚ),
      embed [x] = .ok [v] →
      (EventPipeline.analyze_events_run embed sim_of density_labels clock
        [x]).1 = [] ∧
      statsGet (EventPipeline.analyze_events_run embed sim_of density_labels
        clock [x]).2 "events_detected" = none ∧
      statsGet (EventPipeline.analyze_events_run embed sim_of density_labels
        clock [x]).2 "events_summarized" = some (.n 0)) := by
  constructor
  · intro embed cluster summarize
    rfl
  · intro embed sim_of density_labels clock x v hemb
    rw [analyze_run_singleton embed sim_of density_labels clock x v hemb]
    exact ⟨rfl, by decide, by decide⟩

/-- C6-witness: the amended theorem applied to the empty input and to the
concrete singleton `[newsB]`. -/
theorem analyze_events_small_inputs_witness :
    EventPipeline.analyze_events embedFail clusterNone summarizeNone [] =
      ([], [("total_news", .n 0), ("events_detected", .n 0)]) ∧
    embedOneVec [newsB] = .ok [[1]] ∧
    ((EventPipeline.analyze_events_run embedOneVec simOne densityNone
        clockConst [newsB]).1 = [] ∧
      statsGet (EventPipeline.analyze_events_run embedOneVec simOne densityNone
        clockConst [newsB]).2 "events_detected" = none ∧
      statsGet (EventPipeline.analyze_events_run embedOneVec simOne densityNone
        clockConst [newsB]).2 "events_summarized" = some (.n 0)) :=
  ⟨analyze_events_small_inputs.1 embedFail clusterNone summarizeNone, rfl,
    analyze_events_small_inputs.2 embedOneVec simOne densityNone clockConst
      newsB [1] rfl⟩

/-! ## C7 -/

/-- C7-counterexample: on the fixture pair `[newsC, newsD]` the raw grouping
finds exactly one non-noise cluster, which the validity filter rejects; yet
the successful run's statistics report `clusters_detected = 0` (the
post-validity count, not the raw count) and contain no `filtered_clusters`
key at all — the rejected-cluster count is not visible in the returned
statistics. -/
theorem analyze_events_stats_drop_filtered :
    NewsClusterer.fit_cluster_labels simOne densityNone [[1], [1]] =
      .ok [0, 0] ∧
    ((NewsClusterer.group_by_label ([newsC, newsD].zip [0, 0])).filter
      (fun g => g.1 != -1)).length = 1 ∧
    NewsClusterer.cluster_news
      (NewsClusterer.fit_cluster_labels simOne densityNone)
      [newsC, newsD] [[1], [1]] = .ok [] ∧
    statsGet (EventPipeline.analyze_events_run embedOneVec simOne densityNone
      clockConst [newsC, newsD]).2 "error" = none ∧
    statsGet (EventPipeline.analyze_events_run embedOneVec simOne densityNone
      clockConst [newsC, newsD]).2 "clusters_detected" = some (.n 0) ∧
    statsGet (EventPipeline.analyze_events_run embedOneVec simOne densityNone
      clockConst [newsC, newsD]).2 "filtered_clusters" = none := by
  refine ⟨fit_pair_all_ones, by decide, cluster_news_CD, ?_, ?_, ?_⟩ <;>
    rw [run_pair_CD] <;> decide

/-- C7 (amended): on a successful run the statistics report, as
`clusters_detected`, the number of clusters *returned by `cluster_news`*
(already validity-filtered) and, as `valid_events`, the count after the
additional `MIN_EVENT_SIZE` refilter; no `filtered_clusters` key and no
`error` key ever appear in the returned statistics — the raw-cluster and
rejected-cluster counts computed inside `cluster_news` are discarded. -/
theorem analyze_events_success_stats
    (embed : List NewsItem → Except String (List (List ℚ)))
    (cluster : List NewsItem → List (List ℚ) →
      Except String (List (List NewsItem)))
    (summarize : List (List NewsItem) → Except String (List Event))
    (news_list : List NewsItem) (embeddings : List (List ℚ))
    (clusters : List (List NewsItem)) (events : List Event)
    (hne : news_list.isEmpty = false)
    (hemb : embed news_list = .ok embeddings)
    (hclu : cluster news_list embeddings = .ok clusters)
    (hsum : summarize (clusters.filter (fun c => MIN_EVENT_SIZE ≤ c.length)) =
      .ok events) :
    statsGet (EventPipeline.analyze_events embed cluster summarize
      news_list).2 "clusters_detected" = some (.n clusters.length) ∧
    statsGet (EventPipeline.analyze_events embed cluster summarize
      news_list).2 "valid_events" =
      some (.n ((clusters.filter (fun c => MIN_EVENT_SIZE ≤ c.length)).length)) ∧
    statsGet (EventPipeline.analyze_events embed cluster summarize
      news_list).2 "filtered_clusters" = none ∧
    statsGet (EventPipeline.analyze_events embed cluster summarize
      news_list).2 "error" = none := by
  unfold EventPipeline.analyze_events
  simp only [hne, Bool.false_eq_true, if_false, hemb]
  simp only [hclu]
  simp only [hsum]
  by_cases hev : events.isEmpty = true <;>
    simp [hev, statsGet, List.find?]

/-- C7-witness: the amended theorem applied to the concrete rejected-cluster
run (`[newsC, newsD]`, one raw cluster, zero surviving clusters). -/
theorem analyze_events_success_stats_witness :
    ([newsC, newsD].isEmpty = false) ∧
    embedOneVec [newsC, newsD] = .ok [[1], [1]] ∧
    NewsClusterer.cluster_news
      (NewsClusterer.fit_cluster_labels simOne densityNone)
      [newsC, newsD] [[1], [1]] = .ok [] ∧
    (statsGet (EventPipeline.analyze_events embedOneVec
        (NewsClusterer.cluster_news
          (NewsClusterer.fit_cluster_labels simOne densityNone))
        (fun cs => .ok (EventSummarizer.summarize_events clockConst cs))
        [newsC, newsD]).2 "clusters_detected" = some (.n 0) ∧
      statsGet (EventPipeline.analyze_events embedOneVec
        (NewsClusterer.cluster_news
          (NewsClusterer.fit_cluster_labels simOne densityNone))
        (fun cs => .ok (EventSummarizer.summarize_events clockConst cs))
        [newsC, newsD]).2 "valid_events" = some (.n 0) ∧
      statsGet (EventPipeline.analyze_events embedOneVec
        (NewsClusterer.cluster_news
          (NewsClusterer.fit_cluster_labels simOne densityNone))
        (fun cs => .ok (EventSummarizer.summarize_events clockConst cs))
        [newsC, newsD]).2 "filtered_clusters" = none ∧
      statsGet (EventPipeline.analyze_events embedOneVec
        (NewsClusterer.cluster_news
          (NewsClusterer.fit_cluster_labels simOne densityNone))
        (fun cs => .ok (EventSummarizer.summarize_events clockConst cs))
        [newsC, newsD]).2 "error" = none) :=
  ⟨rfl, rfl, cluster_news_CD,
    analyze_events_success_stats embedOneVec
      (NewsClusterer.cluster_news
        (NewsClusterer.fit_cluster_labels simOne densityNone))
      (fun cs => .ok (EventSummarizer.summarize_events clockConst cs))
      [newsC, newsD] [[1], [1]] [] [] rfl rfl cluster_news_CD rfl⟩

/-! ## C8 -/

/-- C8-counterexample: two clusters summarized within the same second receive
the *same* `event_id` — the produced ids are not distinct (no disambiguator
exists in the code). -/
theorem summarize_events_duplicate_ids :
    (EventSummarizer.summarize_events clockConst
      [[newsA, newsB], [newsC, newsD]]).map (·.event_id) =
      ["event_20260101120000", "event_20260101120000"] ∧
    ¬ ((EventSummarizer.summarize_events clockConst
      [[newsA, newsB], [newsC, newsD]]).map (·.event_id)).Nodup := by
  constructor
  · decide
  · decide

/-- C8 (amended): every event produced in one `summarize_events` run carries
`event_id = "event_" ++ t`, where `t` is the wall-clock timestamp string at
its summarization; when the clock stays within one second (a constant
timestamp string), all produced events share that single id — uniqueness
holds only across distinct seconds, as there is no further disambiguator. -/
theorem summarize_events_const_clock_id (now : String)
    (clusters : List (List NewsItem)) (e : Event)
    (he : e ∈ EventSummarizer.summarize_events (fun _ => now) clusters) :
    e.event_id = "event_" ++ now := by
  unfold EventSummarizer.summarize_events
    EventSummarizer.sort_desc_by_news_count at he
  rw [List.mem_insertionSort] at he
  obtain ⟨p, _, hgen⟩ := List.mem_filterMap.mp he
  unfold EventSummarizer.generate_event_summary at hgen
  by_cases hne : p.2.isEmpty = true
  · rw [if_pos hne] at hgen
    exact absurd hgen (by simp)
  · rw [if_neg hne] at hgen
    injection hgen with h
    rw [← h]

/-- C8-witness: the amended theorem applied to `eventAB` inside the concrete
same-second run. -/
theorem summarize_events_const_clock_id_witness :
    eventAB ∈ EventSummarizer.summarize_events (fun _ => "20260101120000")
      [[newsA, newsB], [newsC, newsD]] ∧
    eventAB.event_id = "event_" ++ "20260101120000" :=
  ⟨by decide,
    summarize_events_const_clock_id "20260101120000"
      [[newsA, newsB], [newsC, newsD]] eventAB (by decide)⟩

/-! ## C10 -/

/-- A hexadecimal digest cannot start with `"hit_"` or `"miss_"`: its first
character would have to be `'h'` or `'m'`, neither of which is a hex digit. -/
theorem hexDigest_no_counter_start (s : String) (h : IsHexDigest s = true) :
    pyStartsWith s "hit_" = false ∧ pyStartsWith s "miss_" = false := by
  unfold IsHexDigest at h
  rw [Bool.and_eq_true] at h
  have hall := List.all_eq_true.mp h.2
  constructor
  · unfold pyStartsWith
    rw [Bool.eq_false_iff]
    intro hc
    have heq := eq_of_beq hc
    have hh : 'h' ∈ s.data.take ("hit_".data.length) := by
      rw [heq]
      exact List.mem_cons_self _ _
    have := hall 'h' (List.take_subset _ _ hh)
    simp [isHexChar] at this
  · unfold pyStartsWith
    rw [Bool.eq_false_iff]
    intro hc
    have heq := eq_of_beq hc
    have hm : 'm' ∈ s.data.take ("miss_".data.length) := by
      rw [heq]
      exact List.mem_cons_self _ _
    have := hall 'm' (List.take_subset _ _ hm)
    simp [isHexChar] at this

/-- `cacheStore` preserves any property of the stored keys, provided the new
key has it. -/
theorem cacheStore_keys (cache : EmbeddingCache) (key : String) (v : List ℚ)
    (P : String → Prop) (hc : ∀ p ∈ cache, P p.1) (hk : P key) :
    ∀ p ∈ cacheStore cache key v, P p.1 := by
  unfold cacheStore
  by_cases hf : (cacheFind cache key).isSome = true
  · rw [if_pos hf]
    intro p hp
    obtain ⟨q, hq, hqe⟩ := List.mem_map.mp hp
    by_cases hqk : q.1 = key
    · rw [if_pos hqk] at hqe
      rw [← hqe]
      exact hk
    · rw [if_neg hqk] at hqe
      rw [← hqe]
      exact hc q hq
  · rw [if_neg hf]
    intro p hp
    rcases List.mem_append.mp hp with hp1 | hp2
    · exact hc p hp1
    · simp only [List.mem_singleton] at hp2
      rw [hp2]
      exact hk

/-- `embed_texts` only ever stores keys produced by the MD5 oracle, so any
property of all MD5 outputs is preserved on the cache keys. -/
theorem embed_texts_keys (md5_hexdigest : String → String)
    (encode : List String → List (List ℚ)) (cache : EmbeddingCache)
    (texts : List String) (P : String → Prop)
    (hc : ∀ p ∈ cache, P p.1) (hall : ∀ t, P (md5_hexdigest t)) :
    ∀ p ∈ (TextEmbedder.embed_texts md5_hexdigest encode cache texts).2,
      P p.1 := by
  unfold TextEmbedder.embed_texts
  by_cases hte : texts.isEmpty = true
  · rw [if_pos hte]
    exact hc
  · rw [if_neg hte]
    intro p hp
    simp only at hp
    revert hp
    have : ∀ (l : List (String × List ℚ)) (c : EmbeddingCache),
        (∀ q ∈ c, P q.1) →
        ∀ p ∈ l.foldl (fun c' q =>
          cacheStore c' (TextEmbedder.generate_cache_key md5_hexdigest q.1)
            q.2) c, P p.1 := by
      intro l
      induction l with
      | nil => intro c hcc p hp; exact hcc p hp
      | cons hd tl ih =>
        intro c hcc p hp
        rw [List.foldl_cons] at hp
        exact ih _ (cacheStore_keys c _ hd.2 P hcc (hall hd.1)) p hp
    exact this _ cache hc p

/-- C10: whatever sequence of `embed_texts` calls is made against a fresh
embedder, `get_cache_stats` always reports `cache_hits = 0` and
`cache_misses = 0`, because every stored key is an MD5 hex digest and so
never starts with `"hit_"` or `"miss_"`; only `cache_size` reflects the
cache contents. -/
theorem embedder_cache_stats_zero_counters
    (md5_hexdigest : String → String)
    (encode : List String → List (List ℚ))
    (calls : List (List String))
    (hmd5 : ∀ t, IsHexDigest (md5_hexdigest t) = true) :
    statsGet (TextEmbedder.get_cache_stats
      (calls.foldl (fun c ts =>
        (TextEmbedder.embed_texts md5_hexdigest encode c ts).2) []))
      "cache_hits" = some (.n 0) ∧
    statsGet (TextEmbedder.get_cache_stats
      (calls.foldl (fun c ts =>
        (TextEmbedder.embed_texts md5_hexdigest encode c ts).2) []))
      "cache_misses" = some (.n 0) ∧
    statsGet (TextEmbedder.get_cache_stats
      (calls.foldl (fun c ts =>
        (TextEmbedder.embed_texts md5_hexdigest encode c ts).2) []))
      "cache_size" =
      some (.n (calls.foldl (fun c ts =>
        (TextEmbedder.embed_texts md5_hexdigest encode c ts).2) []).length) := by
  have hkeys : ∀ p ∈ calls.foldl (fun c ts =>
      (TextEmbedder.embed_texts md5_hexdigest encode c ts).2) [],
      IsHexDigest p.1 = true := by
    have : ∀ (cs : List (List String)) (c : EmbeddingCache),
        (∀ q ∈ c, IsHexDigest q.1 = true) →
        ∀ p ∈ cs.foldl (fun c' ts =>
          (TextEmbedder.embed_texts md5_hexdigest encode c' ts).2) c,
        IsHexDigest p.1 = true := by
      intro cs
      induction cs with
      | nil => intro c hcc p hp; exact hcc p hp
      | cons hd tl ih =>
        intro c hcc p hp
        rw [List.foldl_cons] at hp
        exact ih _
          (embed_texts_keys md5_hexdigest encode c hd
            (fun s => IsHexDigest s = true) hcc hmd5) p hp
    exact this calls [] (by simp)
  have hhits : (calls.foldl (fun c ts =>
      (TextEmbedder.embed_texts md5_hexdigest encode c ts).2) []).countP
      (fun p => pyStartsWith p.1 "hit_") = 0 := by
    rw [List.countP_eq_zero]
    intro p hp
    rw [(hexDigest_no_counter_start p.1 (hkeys p hp)).1]
    exact Bool.false_ne_true
  have hmisses : (calls.foldl (fun c ts =>
      (TextEmbedder.embed_texts md5_hexdigest encode c ts).2) []).countP
      (fun p => pyStartsWith p.1 "miss_") = 0 := by
    rw [List.countP_eq_zero]
    intro p hp
    rw [(hexDigest_no_counter_start p.1 (hkeys p hp)).2]
    exact Bool.false_ne_true
  unfold TextEmbedder.get_cache_stats
  rw [hhits, hmisses]
  exact ⟨rfl, rfl, rfl⟩

/-- C10-witness: the theorem applied to a concrete constant MD5 oracle and a
two-call sequence. -/
theorem embedder_cache_stats_zero_counters_witness :
    IsHexDigest (md5Const "alpha") = true ∧
    (statsGet (TextEmbedder.get_cache_stats
      ([["alpha"], ["alpha", "beta"]].foldl (fun c ts =>
        (TextEmbedder.embed_texts md5Const encodeOne c ts).2) []))
      "cache_hits" = some (.n 0) ∧
    statsGet (TextEmbedder.get_cache_stats
      ([["alpha"], ["alpha", "beta"]].foldl (fun c ts =>
        (TextEmbedder.embed_texts md5Const encodeOne c ts).2) []))
      "cache_misses" = some (.n 0) ∧
    statsGet (TextEmbedder.get_cache_stats
      ([["alpha"], ["alpha", "beta"]].foldl (fun c ts =>
        (TextEmbedder.embed_texts md5Const encodeOne c ts).2) []))
      "cache_size" =
      some (.n ([["alpha"], ["alpha", "beta"]].foldl (fun c ts =>
        (TextEmbedder.embed_texts md5Const encodeOne c ts).2) []).length)) :=
  ⟨by decide,
    embedder_cache_stats_zero_counters md5Const encodeOne
      [["alpha"], ["alpha", "beta"]] (fun _ => rfl)⟩
